import Mathlib

/-!
Shallow embedding of the asynchronous media-generation pipeline implemented in
`supabase/functions/generate-product-video/index.ts`.

The edge function is a sequential orchestrator.  All calls to external
services (Gemini classifier, Gemini image editor, the Kie file host, the
Kie/Sora video service) and the downloaded image bytes are modelled by an
`Env` record of oracle responses; the handler is then a pure function from the
environment, the parsed request body and a remediation fuel bound to the list
of database updates it issues on the `video_generation_jobs` row together
with the HTTP outcome.  The fuel parameter exists only because Lean requires
total functions: the source's `pollSoraVideo` resubmits and re-polls via
unconditional recursion, so a run that keeps hitting guardrail failures never
terminates; exhausting the fuel (`PollOutcome.fuelOut`) marks exactly those
runs.
-/

namespace EtsyVideo

/-- A database update issued against the `video_generation_jobs` row.  Each
constructor corresponds to one `supabase.from('video_generation_jobs').update(...)`
call site in the source, with exactly the fields that call writes. -/
inductive DbUpdate where
  /-- `updateJobStatus` (line 124): `{ status }`. -/
  | status (s : String)
  /-- line 52: `{ human_detected: humanDetected }`. -/
  | humanDetected (b : Bool)
  /-- line 65 (human branch): `{ image_edited, edited_image_url }`. -/
  | editedImage (edited : Bool) (url : String)
  /-- line 74 (no-human branch): `{ edited_image_url }`. -/
  | editedImageUrl (url : String)
  /-- line 87: `{ video_script }`. -/
  | videoScript (s : String)
  /-- line 93: `{ sora_task_id }`. -/
  | soraTaskId (t : String)
  /-- line 292 (remediation): `{ sora_task_id, retry_count: 1, video_script }`.
  The source writes the literal `1`, not an increment. -/
  | remediation (taskId : String) (script : String)
  /-- line 101: `{ status: 'completed', video_url, thumbnail_url, completed_at }`. -/
  | completed (videoUrl : String) (thumbnailUrl : String) (completedAt : String)
deriving DecidableEq, Repr

/-- The `video_generation_jobs` row fields this pipeline touches, per the
migration `20251219105144_create_video_generation_schema.sql`. -/
structure JobRecord where
  status : String
  hero_image_url : String
  human_detected : Bool
  image_edited : Bool
  edited_image_url : Option String
  video_script : Option String
  sora_task_id : Option String
  video_url : Option String
  thumbnail_url : Option String
  retry_count : Nat
  error_message : Option String
  completed_at : Option String
deriving DecidableEq, Repr

/-- The parsed `VideoGenerationRequest` body.  Every field is optional here
because the handler performs no validation: a field the caller omitted is
`undefined` in the TypeScript and `none` here. -/
structure Request where
  jobId : Option String
  listingId : Option String
  productTitle : Option String
  productDescription : Option String
  productTags : Option (List String)
  heroImageUrl : Option String

/-- Decoded response of one `recordInfo` poll of the video service:
`data.data.state`, the `resultUrls` array parsed out of `data.data.resultJson`
(`none` when `resultJson` is absent or unparsable), and `data.data.failMsg`. -/
structure SoraResp where
  state : String
  resultUrls : Option (List String)
  failMsg : Option String
deriving DecidableEq, Repr

/-- Oracle responses of the external collaborators for one run.  Submission
and remediation rounds are numbered from 0; `pollResp round attempt` is the
poll response for the `round`-th submitted task at the `attempt`-th poll. -/
structure Env where
  /-- base64 of the downloaded hero image (lines 45-48). -/
  imageBase64 : String
  /-- `candidates?.[0]?.content?.parts?.[0]?.text` of the classifier call. -/
  detectText : Option String
  /-- `data.generatedImage?.data` of the `removeHumanFromImage` call. -/
  editImageData : Option String
  /-- `data.generatedImage?.data` of the `resizeImage` call. -/
  resizeImageData : Option String
  /-- `data.data.downloadUrl` returned by the Kie file upload, as a function
  of the uploaded base64 bytes and the file name. -/
  upload : String → String → String
  /-- classifier text of the `generateVideoScript` call. -/
  scriptText : Option String
  /-- `data.data.taskId` of the `round`-th `createSoraVideo` submission. -/
  taskId : Nat → String
  /-- poll responses, by submission round and attempt index. -/
  pollResp : Nat → Nat → SoraResp
  /-- classifier text of the `sanitizePrompt` call made after round `round`. -/
  sanitizeText : Nat → Option String
  /-- value of `new Date().toISOString()` at completion. -/
  now : String

/-- JavaScript `String.prototype.trim`: strip whitespace at both ends.
Implemented on the character list so that it reduces inside the kernel. -/
def jsTrim (s : String) : String :=
  ⟨((s.data.dropWhile Char.isWhitespace).reverse.dropWhile Char.isWhitespace).reverse⟩

/-- JavaScript `String.prototype.toUpperCase` (ASCII model). -/
def jsToUpper (s : String) : String :=
  ⟨s.data.map Char.toUpper⟩

/-- JavaScript `String.prototype.toLowerCase` (ASCII model). -/
def jsToLower (s : String) : String :=
  ⟨s.data.map Char.toLower⟩

/-- whether `pat` is an initial segment of `s`. -/
def hasLead : List Char → List Char → Bool
  | [], _ => true
  | _ :: _, [] => false
  | p :: ps, c :: cs => p = c && hasLead ps cs

/-- whether `pat` occurs somewhere in `s`. -/
def hasSub (pat : List Char) : List Char → Bool
  | [] => hasLead pat []
  | c :: cs => hasLead pat (c :: cs) || hasSub pat cs

/-- JavaScript `String.prototype.includes`. -/
def jsIncludes (s pat : String) : Bool :=
  hasSub pat.data s.data

/-- JavaScript `x || fallback` on an optional string: `undefined` and the
empty string are both falsy. -/
def orElseStr (resp : Option String) (fallback : String) : String :=
  match resp with
  | some s => if s = "" then fallback else s
  | none => fallback

/-- `detectHuman` (lines 128-148): true iff the classifier text, trimmed and
upper-cased, is exactly `"YES"`; any missing or other response gives false. -/
def detectHuman (resp : Option String) : Bool :=
  match resp with
  | some t => jsToUpper (jsTrim t) == "YES"
  | none => false

/-- `removeHumanFromImage` (lines 150-165): `data.generatedImage?.data || imageBase64`. -/
def removeHumanFromImage (resp : Option String) (imageBase64 : String) : String :=
  orElseStr resp imageBase64

/-- `resizeImage` (lines 167-182): `data.generatedImage?.data || imageBase64`. -/
def resizeImage (resp : Option String) (imageBase64 : String) : String :=
  orElseStr resp imageBase64

/-- `uploadToKie` (lines 184-200): returns `data.data.downloadUrl`. -/
def uploadToKie (env : Env) (imageBase64 : String) (fileName : String) : String :=
  env.upload imageBase64 fileName

/-- `generateVideoScript` (lines 202-221): `text?.trim() || ''`. -/
def generateVideoScript (resp : Option String) : String :=
  match resp with
  | some t => jsTrim t
  | none => ""

/-- `sanitizePrompt` (lines 307-325): `text?.trim() || originalPrompt`. -/
def sanitizePrompt (resp : Option String) (originalPrompt : String) : String :=
  match resp with
  | some t => if jsTrim t = "" then originalPrompt else jsTrim t
  | none => originalPrompt

/-- the guardrail classification of `pollSoraVideo` (lines 281-286). -/
def isGuardrailViolation (failMsg : String) : Bool :=
  jsIncludes (jsToLower failMsg) "guardrail" ||
  jsIncludes (jsToLower failMsg) "third-party content" ||
  jsIncludes (jsToLower failMsg) "violate" ||
  jsIncludes (jsToLower failMsg) "policy" ||
  jsIncludes (jsToLower failMsg) "copyright"

/-- replace the first occurrence of `pat` in the list by `rep`. -/
def replaceFirstChars (pat rep : List Char) : List Char → List Char
  | [] => []
  | c :: cs =>
    if hasLead pat (c :: cs) then rep ++ (c :: cs).drop pat.length
    else c :: replaceFirstChars pat rep cs

/-- JavaScript `String.prototype.replace` with a string pattern replaces only
the first occurrence. -/
def replaceFirst (s pat rep : String) : String :=
  ⟨replaceFirstChars pat.data rep.data s.data⟩

/-- Result of one bounded 30-attempt poll pass over a single submitted task
(the `for` loop of `pollSoraVideo`, lines 263-302). -/
inductive PollRes where
  /-- `state === 'success'` with a first result URL: the loop returns it. -/
  | success (url : String)
  /-- a thrown error: either the non-guardrail `fail` branch (line 300) or a
  `success` response whose result JSON cannot be used. -/
  | failure (msg : String)
  /-- `state === 'fail'` with a guardrail-matching `failMsg`: the source
  sanitizes, resubmits and recurses. -/
  | remediate (failMsg : String)
  /-- 30 attempts exhausted (line 304). -/
  | timeout
deriving DecidableEq, Repr

/-- The inner attempt loop of `pollSoraVideo`: up to `remaining` further
polls, the next one being attempt number `attempt` of submission `round`. -/
def pollLoop (env : Env) (round : Nat) : Nat → Nat → PollRes
  | 0, _ => PollRes.timeout
  | remaining + 1, attempt =>
    if (env.pollResp round attempt).state = "success" then
      match (env.pollResp round attempt).resultUrls with
      | some (u :: _) => PollRes.success u
      | _ => PollRes.failure "Video generation result parse error"
    else if (env.pollResp round attempt).state = "fail" then
      if isGuardrailViolation ((env.pollResp round attempt).failMsg.getD "") then
        PollRes.remediate ((env.pollResp round attempt).failMsg.getD "")
      else
        PollRes.failure
          ("Video generation failed: " ++ (env.pollResp round attempt).failMsg.getD "")
    else pollLoop env round remaining (attempt + 1)

/-- Outcome of `pollSoraVideo` including all remediation rounds. -/
inductive PollOutcome where
  | ok (url : String)
  | failed (msg : String)
  /-- the modelling fuel ran out while the source would have recursed into
  yet another remediation round. -/
  | fuelOut
deriving DecidableEq, Repr

/-- `pollSoraVideo` (lines 253-305).  `script` is the current prompt, `round`
the current submission index.  A guardrail failure sanitizes the prompt,
creates a fresh task, issues the remediation update and recurses; the source
recursion is unconditional, so the recursion depth is bounded here only by
`fuel`. -/
def pollSora (env : Env) (script : String) (round : Nat) : Nat → List DbUpdate × PollOutcome
  | 0 => ([], PollOutcome.fuelOut)
  | fuel + 1 =>
    match pollLoop env round 30 0 with
    | PollRes.success url => ([], PollOutcome.ok url)
    | PollRes.failure msg => ([], PollOutcome.failed msg)
    | PollRes.timeout => ([], PollOutcome.failed "Video generation timeout")
    | PollRes.remediate _ =>
      let sanitized := sanitizePrompt (env.sanitizeText round) script
      let newTaskId := env.taskId (round + 1)
      let next := pollSora env sanitized (round + 1) fuel
      (DbUpdate.remediation newTaskId sanitized :: next.1, next.2)

/-- Steps 2-3 of the handler (lines 56-76): branch on the detection result,
transform, upload, and issue the branch's update.  Returns the updates and
the resulting `processedImageUrl`. -/
def imagePhase (env : Env) (humanDetected : Bool) (imageBase64 : String) :
    List DbUpdate × String :=
  if humanDetected then
    let edited := removeHumanFromImage env.editImageData imageBase64
    let url := uploadToKie env edited "edited-product.jpg"
    ([DbUpdate.status "editing_image", DbUpdate.editedImage true url], url)
  else
    let resized := resizeImage env.resizeImageData imageBase64
    let url := uploadToKie env resized "product.jpg"
    ([DbUpdate.editedImageUrl url], url)

/-- HTTP outcome of the handler: the 200 body on success, the 500 body's
error message otherwise, or fuel exhaustion of the remediation recursion. -/
inductive Outcome where
  | ok (videoUrl : String)
  | err (msg : String)
  | fuelOut
deriving DecidableEq, Repr

/-- The `Deno.serve` handler (lines 21-122) for an authenticated POST.  The
first status update (line 44) precedes the image download, so it is issued
even when `heroImageUrl` is missing; in that case `fetch(undefined)` throws
and the catch block returns the 500 response with no further update.  No
error path writes `status = 'failed'` or `error_message`: the catch block
(lines 115-121) only returns the HTTP error response. -/
def runHandler (env : Env) (req : Request) (fuel : Nat) : List DbUpdate × Outcome :=
  match req.heroImageUrl with
  | none => ([DbUpdate.status "detecting_human"], Outcome.err "image download failed")
  | some _ =>
    let humanDetected := detectHuman env.detectText
    let img := imagePhase env humanDetected env.imageBase64
    let script := generateVideoScript env.scriptText
    let pre := DbUpdate.status "detecting_human" :: DbUpdate.humanDetected humanDetected ::
      img.1 ++ [DbUpdate.status "generating_script", DbUpdate.videoScript script,
        DbUpdate.status "generating_video", DbUpdate.soraTaskId (env.taskId 0)]
    match pollSora env script 0 fuel with
    | (pu, PollOutcome.ok url) =>
      (pre ++ pu ++
        [DbUpdate.completed url (replaceFirst url ".mp4" "_thumbnail.jpg") env.now],
        Outcome.ok url)
    | (pu, PollOutcome.failed msg) => (pre ++ pu, Outcome.err msg)
    | (pu, PollOutcome.fuelOut) => (pre ++ pu, Outcome.fuelOut)

/-- Effect of one update on the row. -/
def applyUpdate (r : JobRecord) : DbUpdate → JobRecord
  | DbUpdate.status s => { r with status := s }
  | DbUpdate.humanDetected b => { r with human_detected := b }
  | DbUpdate.editedImage e url => { r with image_edited := e, edited_image_url := some url }
  | DbUpdate.editedImageUrl url => { r with edited_image_url := some url }
  | DbUpdate.videoScript s => { r with video_script := some s }
  | DbUpdate.soraTaskId t => { r with sora_task_id := some t }
  | DbUpdate.remediation t s =>
    { r with sora_task_id := some t, retry_count := 1, video_script := some s }
  | DbUpdate.completed vUrl tUrl ts =>
    { r with
      status := "completed",
      video_url := some vUrl,
      thumbnail_url := some tUrl,
      completed_at := some ts }

/-- Apply a list of updates in order. -/
def applyAll (t : List DbUpdate) (r : JobRecord) : JobRecord :=
  t.foldl applyUpdate r

/-- The row as the caller creates it (`generateProductVideo` in
`src/lib/api.ts` inserts `status: 'pending'` and `hero_image_url`; the other
columns take the migration's defaults: booleans false, `retry_count` 0,
nullable columns null). -/
def initJob (req : Request) : JobRecord :=
  { status := "pending",
    hero_image_url := req.heroImageUrl.getD "",
    human_detected := false,
    image_edited := false,
    edited_image_url := none,
    video_script := none,
    sora_task_id := none,
    video_url := none,
    thumbnail_url := none,
    retry_count := 0,
    error_message := none,
    completed_at := none }

/-- The row after the whole run. -/
def finalRecord (env : Env) (req : Request) (fuel : Nat) : JobRecord :=
  applyAll (runHandler env req fuel).1 (initJob req)

/-- The status value an update writes, if any (the terminal update of line
101 writes `status: 'completed'` together with its data fields). -/
def statusOf : DbUpdate → Option String
  | DbUpdate.status s => some s
  | DbUpdate.completed _ _ _ => some "completed"
  | _ => none

/-- The sequence of `status` values an observer of the row sees: the
creation-time `pending` followed by every status written during the run. -/
def statusTrace (env : Env) (req : Request) (fuel : Nat) : List String :=
  "pending" :: (runHandler env req fuel).1.filterMap statusOf

/-- updates issued by a remediation round. -/
def isRemUpd : DbUpdate → Bool
  | DbUpdate.remediation _ _ => true
  | _ => false

/-- updates issued by the image stage. -/
def isImgUpd : DbUpdate → Bool
  | DbUpdate.editedImage _ _ => true
  | DbUpdate.editedImageUrl _ => true
  | _ => false

/-- Concrete request with every field present. -/
def reqStd : Request :=
  { jobId := some "job-1",
    listingId := some "listing-1",
    productTitle := some "Ceramic Mug",
    productDescription := some "A mug",
    productTags := some ["mug"],
    heroImageUrl := some "https://etsy.example/src.jpg" }

/-- Request missing the required `jobId`. -/
def reqNoJob : Request := { reqStd with jobId := none }

/-- Request missing the required `heroImageUrl`. -/
def reqNoHero : Request := { reqStd with heroImageUrl := none }

/-- A still-processing poll response. -/
def respWait : SoraResp := { state := "wait", resultUrls := none, failMsg := none }

/-- A successful poll response carrying one result URL. -/
def respSuccess (u : String) : SoraResp :=
  { state := "success", resultUrls := some [u], failMsg := none }

/-- A failed poll response with the given `failMsg`. -/
def respFail (m : String) : SoraResp :=
  { state := "fail", resultUrls := none, failMsg := some m }

/-- Environment template: classifier answers NO, every transform succeeds,
the file host returns a fresh URL, script is "X"; the poll behaviour is the
parameter. -/
def mkEnv (poll : Nat → Nat → SoraResp) : Env :=
  { imageBase64 := "IMGB64",
    detectText := some "NO",
    editImageData := some "EDITB64",
    resizeImageData := some "OPTB64",
    upload := fun _ name => "https://kie.example/" ++ name,
    scriptText := some "X",
    taskId := fun n => "task" ++ toString n,
    pollResp := poll,
    sanitizeText := fun _ => some "Y-clean",
    now := "2025-01-01T00:00:00Z" }

/-- Scenario A environment: no subject, first poll succeeds with `U.mp4`. -/
def envA : Env := mkEnv fun _ _ => respSuccess "https://v.example/U.mp4"

/-- Environment where every poll stays pending: the attempt budget runs out. -/
def envTO : Env := mkEnv fun _ _ => respWait

/-- Environment whose task fails with a non-guardrail reason. -/
def envNR : Env := mkEnv fun _ _ => respFail "internal error"

/-- Environment where every submission fails with a guardrail reason: the
source would remediate and resubmit forever. -/
def envG : Env := mkEnv fun _ _ => respFail "copyright violation"

/-- Environment with guardrail failures for the first three submissions and
success for the fourth. -/
def envC3 : Env := mkEnv fun r _ =>
  if r < 3 then respFail "copyright violation" else respSuccess "https://v.example/V.mp4"

/-- Environment where both image transforms return no generated image. -/
def envC9 : Env :=
  { mkEnv (fun _ _ => respSuccess "https://v.example/U.mp4") with
    editImageData := none, resizeImageData := none }

/-- Adversarial publisher: the upload returns exactly the source image URL. -/
def envSameUrl : Env :=
  { envA with upload := fun _ _ => "https://etsy.example/src.jpg" }

/-- Scenario-B-like environment: subject detected, first submission hits a
guardrail failure, the resubmission succeeds. -/
def envB : Env :=
  { mkEnv (fun r _ =>
      if r = 0 then respFail "copyright violation"
      else respSuccess "https://v.example/V.mp4") with
    detectText := some "YES" }

/-- The `processedImageUrl` a run computes: the URL returned by the Kie file
upload of the transformed bytes (the second component of `imagePhase`). -/
def processedUrl (env : Env) : String :=
  (imagePhase env (detectHuman env.detectText) env.imageBase64).2

/-- Record-level reading of the spec's "an observer never sees a stage's data
without the run having reached at least that stage": whenever `video_script`
is set the status has reached the script stage, whenever `sora_task_id` is
set the status has reached the synthesis stage, and a `video_url` is only
ever visible together with status `completed`. -/
def GOODrec (r : JobRecord) : Prop :=
  (r.video_script.isSome = true →
    r.status ∈ (["generating_script", "generating_video", "completed"] : List String)) ∧
  (r.sora_task_id.isSome = true →
    r.status ∈ (["generating_video", "completed"] : List String)) ∧
  (r.video_url.isSome = true → r.status = "completed")

/-- `GOODrec` holds at the state before each update of the list and at the
final state: i.e. at every observer-visible prefix state. -/
def GoodChain : JobRecord → List DbUpdate → Prop
  | r, [] => GOODrec r
  | r, u :: t => GOODrec r ∧ GoodChain (applyUpdate r u) t

/-- Invariant holding while the run is inside `pollSoraVideo`: status is
`generating_video`, the script and task id have been written, and no video
URL exists yet. -/
def PollInv (r : JobRecord) : Prop :=
  r.status = "generating_video" ∧ r.video_script.isSome = true ∧
  r.sora_task_id.isSome = true ∧ r.video_url = none

/-- Claim C4's shape, phrased from the spec's words: the status sequence is a
prefix of `pending, detecting_human, {editing_image|optimizing_image},
generating_script, generating_video, completed|failed`. -/
def claimC4Holds (t : List String) : Bool :=
  (["editing_image", "optimizing_image"]).any fun mid =>
    (["completed", "failed"]).any fun last =>
      t.isPrefixOf
        ["pending", "detecting_human", mid, "generating_script", "generating_video", last]

/-! ## General lemmas about the embedding -/

theorem applyAll_nil (r : JobRecord) : applyAll [] r = r := rfl

theorem applyAll_cons (u : DbUpdate) (t : List DbUpdate) (r : JobRecord) :
    applyAll (u :: t) r = applyAll t (applyUpdate r u) := rfl

theorem applyAll_append (a b : List DbUpdate) (r : JobRecord) :
    applyAll (a ++ b) r = applyAll b (applyAll a r) :=
  List.foldl_append _ _ _ _

/-- Every update issued inside `pollSoraVideo` is a remediation update. -/
theorem pollSora_shape (env : Env) :
    ∀ (fuel : Nat) (script : String) (round : Nat),
      ∀ u ∈ (pollSora env script round fuel).1, ∃ a b, u = DbUpdate.remediation a b := by
  intro fuel
  induction fuel with
  | zero => intro script round u hu; simp [pollSora] at hu
  | succ n ih =>
    intro script round u hu
    rw [pollSora] at hu
    cases hl : pollLoop env round 30 0 <;> rw [hl] at hu
    case success => simp at hu
    case failure => simp at hu
    case timeout => simp at hu
    case remediate m =>
      simp only [List.mem_cons] at hu
      rcases hu with h | h
      · exact ⟨_, _, h⟩
      · exact ih _ _ u h

/-- `pollSoraVideo` never writes a status value. -/
theorem pollSora_noStatus (env : Env) (fuel : Nat) (script : String) (round : Nat) :
    (pollSora env script round fuel).1.filterMap statusOf = [] := by
  rw [List.filterMap_eq_nil_iff]
  intro u hu
  obtain ⟨a, b, rfl⟩ := pollSora_shape env fuel script round u hu
  rfl

/-- `pollSoraVideo` never writes an image-stage field. -/
theorem pollSora_noImg (env : Env) (fuel : Nat) (script : String) (round : Nat) :
    (pollSora env script round fuel).1.countP isImgUpd = 0 := by
  rw [List.countP_eq_zero]
  intro u hu
  obtain ⟨a, b, rfl⟩ := pollSora_shape env fuel script round u hu
  simp [isImgUpd]

/-- Remediation and terminal-completion updates do not change the image-stage
fields of the row. -/
theorem applyAll_keeps_img (t : List DbUpdate) :
    (∀ u ∈ t, (∃ a b, u = DbUpdate.remediation a b) ∨ ∃ a b c, u = DbUpdate.completed a b c) →
    ∀ r : JobRecord,
      (applyAll t r).human_detected = r.human_detected ∧
      (applyAll t r).image_edited = r.image_edited ∧
      (applyAll t r).edited_image_url = r.edited_image_url := by
  induction t with
  | nil => intro _ r; exact ⟨rfl, rfl, rfl⟩
  | cons u t ih =>
    intro h r
    have hu := h u (by simp)
    have ht := fun v hv => h v (List.mem_cons_of_mem u hv)
    rcases hu with ⟨a, b, rfl⟩ | ⟨a, b, c, rfl⟩ <;>
      simpa [applyAll_cons, applyUpdate] using ih ht _

/-- No update can raise `retry_count` above 1: the remediation update writes
the literal 1 and nothing else touches the column. -/
theorem applyAll_retry_le (t : List DbUpdate) :
    ∀ r : JobRecord, r.retry_count ≤ 1 → (applyAll t r).retry_count ≤ 1 := by
  induction t with
  | nil => intro r h; exact h
  | cons u t ih =>
    intro r h
    rw [applyAll_cons]
    cases u <;> apply ih <;> simp [applyUpdate] <;> exact h

/-- The inner poll loop asks for a remediation only when the failure message
matches the guardrail keyword set. -/
theorem pollLoop_remediate_guardrail (env : Env) (round : Nat) :
    ∀ (remaining attempt : Nat) (m : String),
      pollLoop env round remaining attempt = PollRes.remediate m →
      isGuardrailViolation m = true := by
  intro remaining
  induction remaining with
  | zero => intro a m h; simp [pollLoop] at h
  | succ n ih =>
    intro a m h
    rw [pollLoop] at h
    split at h
    · split at h <;> simp_all
    · split at h
      · split at h
        · rename_i hguard
          obtain rfl := PollRes.remediate.inj h
          exact hguard
        · exact absurd h (by simp)
      · exact ih (a + 1) m h

theorem goodChain_head (t : List DbUpdate) (r : JobRecord) (h : GoodChain r t) : GOODrec r := by
  cases t with
  | nil => exact h
  | cons u t => exact h.1

/-- From a chained run every take-prefix state is good. -/
theorem takeGood (t : List DbUpdate) :
    ∀ r : JobRecord, GoodChain r t → ∀ k, GOODrec (applyAll (t.take k) r) := by
  induction t with
  | nil =>
    intro r h k
    simpa [applyAll] using h
  | cons u t ih =>
    intro r h k
    cases k with
    | zero => simpa [applyAll] using h.1
    | succ k => simpa [List.take_succ_cons, applyAll_cons] using ih (applyUpdate r u) h.2 k

theorem goodChain_append (a : List DbUpdate) :
    ∀ (b : List DbUpdate) (r : JobRecord),
      GoodChain r a → GoodChain (applyAll a r) b → GoodChain r (a ++ b) := by
  induction a with
  | nil => intro b r _ hb; simpa [applyAll] using hb
  | cons u a ih =>
    intro b r ha hb
    exact ⟨ha.1, ih b (applyUpdate r u) ha.2 (by simpa [applyAll_cons] using hb)⟩

theorem pollInv_good (r : JobRecord) (h : PollInv r) : GOODrec r := by
  obtain ⟨h1, h2, h3, h4⟩ := h
  refine ⟨fun _ => ?_, fun _ => ?_, fun hv => ?_⟩
  · simp [h1]
  · simp [h1]
  · rw [h4] at hv; simp at hv

/-- Inside `pollSoraVideo` the invariant is preserved at every update, and
holds again at the end of the poll segment. -/
theorem pollSora_goodChain (env : Env) :
    ∀ (fuel : Nat) (script : String) (round : Nat) (r : JobRecord), PollInv r →
      GoodChain r (pollSora env script round fuel).1 ∧
      PollInv (applyAll (pollSora env script round fuel).1 r) := by
  intro fuel
  induction fuel with
  | zero =>
    intro script round r h
    exact ⟨pollInv_good r h, h⟩
  | succ n ih =>
    intro script round r h
    rw [pollSora]
    cases hl : pollLoop env round 30 0
    case success => exact ⟨pollInv_good r h, h⟩
    case failure => exact ⟨pollInv_good r h, h⟩
    case timeout => exact ⟨pollInv_good r h, h⟩
    case remediate m =>
      have hrem : PollInv (applyUpdate r
          (DbUpdate.remediation (env.taskId (round + 1))
            (sanitizePrompt (env.sanitizeText round) script))) := by
        obtain ⟨h1, h2, h3, h4⟩ := h
        exact ⟨h1, by simp [applyUpdate], by simp [applyUpdate], h4⟩
      have hnext := ih (sanitizePrompt (env.sanitizeText round) script) (round + 1) _ hrem
      exact ⟨⟨pollInv_good r h, hnext.1⟩, hnext.2⟩

/-- In the all-guardrail environment `envG` every fuel allowance is consumed:
each unit of fuel corresponds to one more remediation round (one sanitize +
resubmit), and the run is still unfinished afterwards.  This is the
unconditional-recursion behaviour of the source's `pollSoraVideo`. -/
theorem pollSora_envG (fuel : Nat) :
    ∀ (script : String) (round : Nat),
      (pollSora envG script round fuel).2 = PollOutcome.fuelOut ∧
      (pollSora envG script round fuel).1.countP isRemUpd = fuel := by
  induction fuel with
  | zero => intro script round; exact ⟨rfl, rfl⟩
  | succ n ih =>
    intro script round
    have hl : pollLoop envG round 30 0 = PollRes.remediate "copyright violation" := rfl
    rw [pollSora, hl]
    have := ih (sanitizePrompt (envG.sanitizeText round) script) (round + 1)
    refine ⟨this.1, ?_⟩
    simp [List.countP_cons, this.2, isRemUpd]

/-- Chain for the poll segment followed by the terminal completion update. -/
theorem pollPlusCompleted (env : Env) (fuel round : Nat) (script : String) (r : JobRecord)
    (hinv : PollInv r) (a b c : String) :
    GoodChain r ((pollSora env script round fuel).1 ++ [DbUpdate.completed a b c]) := by
  apply goodChain_append
  · exact (pollSora_goodChain env fuel script round r hinv).1
  · exact ⟨pollInv_good _ (pollSora_goodChain env fuel script round r hinv).2,
      by simp [GoodChain, GOODrec, applyUpdate]⟩

/-- The whole run, viewed from any observer prefix, keeps the data-implies-
status invariant: helper establishing the chain for `c5_data_never_before_status`. -/
theorem runHandler_goodChain (env : Env) (req : Request) (fuel : Nat) :
    GoodChain (initJob req) (runHandler env req fuel).1 := by
  cases hh : req.heroImageUrl with
  | none =>
    simp only [runHandler, hh]
    exact ⟨by simp [GOODrec, initJob], by simp [GOODrec, GoodChain, applyUpdate, initJob]⟩
  | some s =>
    simp only [runHandler, hh]
    cases hb : detectHuman env.detectText <;>
      rcases hp : pollSora env (generateVideoScript env.scriptText) 0 fuel with ⟨pu, pout⟩ <;>
      have hpu : pu = (pollSora env (generateVideoScript env.scriptText) 0 fuel).1 := by
        rw [hp]
    case some.false.mk =>
      cases pout
      case ok url =>
        refine ⟨?_, ?_, ?_, ?_, ?_, ?_, ?_, ?_⟩ <;>
          try simp [GOODrec, applyUpdate, initJob]
        rw [hpu]
        exact pollPlusCompleted env fuel 0 _ _ (by simp [PollInv, applyUpdate, initJob]) _ _ _
      case failed msg =>
        refine ⟨?_, ?_, ?_, ?_, ?_, ?_, ?_, ?_⟩ <;>
          try simp [GOODrec, applyUpdate, initJob]
        rw [hpu]
        exact (pollSora_goodChain env fuel _ 0 _ (by simp [PollInv, applyUpdate, initJob])).1
      case fuelOut =>
        refine ⟨?_, ?_, ?_, ?_, ?_, ?_, ?_, ?_⟩ <;>
          try simp [GOODrec, applyUpdate, initJob]
        rw [hpu]
        exact (pollSora_goodChain env fuel _ 0 _ (by simp [PollInv, applyUpdate, initJob])).1
    case some.true.mk =>
      cases pout
      case ok url =>
        refine ⟨?_, ?_, ?_, ?_, ?_, ?_, ?_, ?_, ?_⟩ <;>
          try simp [GOODrec, applyUpdate, initJob]
        rw [hpu]
        exact pollPlusCompleted env fuel 0 _ _ (by simp [PollInv, applyUpdate, initJob]) _ _ _
      case failed msg =>
        refine ⟨?_, ?_, ?_, ?_, ?_, ?_, ?_, ?_, ?_⟩ <;>
          try simp [GOODrec, applyUpdate, initJob]
        rw [hpu]
        exact (pollSora_goodChain env fuel _ 0 _ (by simp [PollInv, applyUpdate, initJob])).1
      case fuelOut =>
        refine ⟨?_, ?_, ?_, ?_, ?_, ?_, ?_, ?_, ?_⟩ <;>
          try simp [GOODrec, applyUpdate, initJob]
        rw [hpu]
        exact (pollSora_goodChain env fuel _ 0 _ (by simp [PollInv, applyUpdate, initJob])).1

/-- Decomposition of a run with a present image URL: the trace is the fixed
stage prelude, then the poll-segment updates, then a possibly empty tail of
terminal-completion updates. -/
theorem runHandler_decomp (env : Env) (req : Request) (fuel : Nat) (s : String)
    (hh : req.heroImageUrl = some s) :
    ∃ tail,
      (runHandler env req fuel).1 =
        ((DbUpdate.status "detecting_human" ::
            DbUpdate.humanDetected (detectHuman env.detectText) ::
            (imagePhase env (detectHuman env.detectText) env.imageBase64).1) ++
          [DbUpdate.status "generating_script",
            DbUpdate.videoScript (generateVideoScript env.scriptText),
            DbUpdate.status "generating_video", DbUpdate.soraTaskId (env.taskId 0)] ++
          (pollSora env (generateVideoScript env.scriptText) 0 fuel).1 ++ tail) ∧
      ∀ u ∈ tail, ∃ a b c, u = DbUpdate.completed a b c := by
  rcases hp : pollSora env (generateVideoScript env.scriptText) 0 fuel with ⟨pu, pout⟩
  cases pout with
  | ok url =>
    refine ⟨[DbUpdate.completed url (replaceFirst url ".mp4" "_thumbnail.jpg") env.now],
      ?_, ?_⟩
    · simp only [runHandler, hh]
      rw [hp]
      try simp [List.append_assoc]
    · intro u hu
      simp at hu
      exact ⟨_, _, _, hu⟩
  | failed msg =>
    refine ⟨[], ?_, by simp⟩
    simp only [runHandler, hh]
    rw [hp]
    try simp [List.append_assoc]
  | fuelOut =>
    refine ⟨[], ?_, by simp⟩
    simp only [runHandler, hh]
    rw [hp]
    try simp [List.append_assoc]

/-! ## Claim theorems -/

/-- C1 (code bug): on the two video-stage error paths the claim names — a
non-remediable `Failed{reason}` result and poll-timeout — the handler does
not persist `status = 'failed'` and does not write `error_message`: the job
row is left at `generating_video` and the only reaction is the HTTP 500
response.  Evaluated at the two concrete failing environments. -/
theorem c1_error_paths_never_persist_failed :
    ((runHandler envTO reqStd 1).2 = Outcome.err "Video generation timeout" ∧
      (finalRecord envTO reqStd 1).status = "generating_video" ∧
      (finalRecord envTO reqStd 1).error_message = none ∧
      DbUpdate.status "failed" ∉ (runHandler envTO reqStd 1).1) ∧
    ((runHandler envNR reqStd 1).2 = Outcome.err "Video generation failed: internal error" ∧
      (finalRecord envNR reqStd 1).status = "generating_video" ∧
      (finalRecord envNR reqStd 1).error_message = none ∧
      DbUpdate.status "failed" ∉ (runHandler envNR reqStd 1).1) := by
  decide

/-- C2 (counterexample): with every submission failing on a guardrail reason,
ten remediation rounds (five times the spec's recommended bound of 2) have
already been performed and the run is still not finished — the claimed
`maxPollAttempts x bounded-remediation-rounds` bound on the loop is false. -/
theorem c2_ten_remediation_rounds_insufficient :
    (runHandler envG reqStd 10).2 = Outcome.fuelOut ∧
    (runHandler envG reqStd 10).1.countP isRemUpd = 10 := by
  decide

/-- C2 (amended): the per-task poll loop is iterative and bounded by 30
attempts, but remediation is unconditional recursion with no bound check:
in the all-guardrail environment, every remediation fuel allowance `n` is
consumed by exactly `n` sanitize-and-resubmit rounds and the run is still
unfinished, so the total number of rounds (and hence poll calls) grows
without bound. -/
theorem c2_remediation_unbounded (fuel : Nat) :
    (runHandler envG reqStd fuel).2 = Outcome.fuelOut ∧
    (runHandler envG reqStd fuel).1.countP isRemUpd = fuel := by
  have hG := pollSora_envG fuel (generateVideoScript envG.scriptText) 0
  rcases hp : pollSora envG (generateVideoScript envG.scriptText) 0 fuel with ⟨pu, pout⟩
  rw [hp] at hG
  have hpout : pout = PollOutcome.fuelOut := hG.1
  subst hpout
  constructor
  · simp only [runHandler, reqStd]
    rw [hp]
  · have htr : (runHandler envG reqStd fuel).1 =
        (DbUpdate.status "detecting_human" ::
          DbUpdate.humanDetected (detectHuman envG.detectText) ::
          (imagePhase envG (detectHuman envG.detectText) envG.imageBase64).1 ++
          [DbUpdate.status "generating_script",
            DbUpdate.videoScript (generateVideoScript envG.scriptText),
            DbUpdate.status "generating_video", DbUpdate.soraTaskId (envG.taskId 0)]) ++ pu := by
      simp only [runHandler, reqStd]
      rw [hp]
    rw [htr, List.countP_append]
    have hpre : (DbUpdate.status "detecting_human" ::
        DbUpdate.humanDetected (detectHuman envG.detectText) ::
        (imagePhase envG (detectHuman envG.detectText) envG.imageBase64).1 ++
        [DbUpdate.status "generating_script",
          DbUpdate.videoScript (generateVideoScript envG.scriptText),
          DbUpdate.status "generating_video",
          DbUpdate.soraTaskId (envG.taskId 0)]).countP isRemUpd = 0 := by decide
    rw [hpre, hG.2]
    exact Nat.zero_add fuel

/-- C3 (counterexample): with three consecutive guardrail failures followed
by a success, the code performs three remediation rounds (the claimed bound
of 2 does not stop it) and the persisted `retry_count` is still 1 afterwards
(each round writes the literal 1 instead of incrementing). -/
theorem c3_retry_count_stuck_at_one :
    (runHandler envC3 reqStd 5).2 = Outcome.ok "https://v.example/V.mp4" ∧
    (runHandler envC3 reqStd 5).1.countP isRemUpd = 3 ∧
    (finalRecord envC3 reqStd 5).retry_count = 1 := by
  decide

/-- C3 (amended): `retry_count` starts at 0 and, because every remediation
update writes the literal 1, it can never exceed 1 on any run; and a
remediation round is triggered only when the failure reason matches the
guardrail keyword set.  There is no `retry_count < max` check and no bound
forcing `failed`. -/
theorem c3_retry_semantics :
    (∀ (env : Env) (req : Request) (fuel : Nat),
      (initJob req).retry_count = 0 ∧ (finalRecord env req fuel).retry_count ≤ 1) ∧
    (∀ (env : Env) (round remaining attempt : Nat) (m : String),
      pollLoop env round remaining attempt = PollRes.remediate m →
      isGuardrailViolation m = true) := by
  constructor
  · intro env req fuel
    exact ⟨rfl, applyAll_retry_le _ _ (by simp [initJob])⟩
  · intro env round remaining attempt m h
    exact pollLoop_remediate_guardrail env round remaining attempt m h

/-- Witness for `c3_retry_semantics` at the concrete three-violation run. -/
theorem c3_retry_semantics_witness :
    ((initJob reqStd).retry_count = 0 ∧ (finalRecord envC3 reqStd 5).retry_count ≤ 1) ∧
    isGuardrailViolation "copyright violation" = true :=
  ⟨c3_retry_semantics.1 envC3 reqStd 5,
    c3_retry_semantics.2 envC3 0 30 0 "copyright violation" (by decide)⟩

/-- C4 (counterexample): in the no-subject branch no image-stage status is
ever persisted, so the observed status sequence of a clean no-subject run is
not a prefix of the claimed
`pending, detecting_human, {editing_image|optimizing}, generating_script,
generating_video, completed|failed` sequence. -/
theorem c4_optimize_branch_skips_image_status :
    statusTrace envA reqStd 1 =
      ["pending", "detecting_human", "generating_script", "generating_video", "completed"] ∧
    claimC4Holds (statusTrace envA reqStd 1) = false := by
  decide

/-- C4 (amended): every status trace is a prefix of
`pending, detecting_human, editing_image, generating_script,
generating_video, completed` (subject branch) or of
`pending, detecting_human, generating_script, generating_video, completed`
(no-subject branch, which persists no image-stage status); in particular
there is never a regression and `failed` is never persisted. -/
theorem c4_trace_shapes (env : Env) (req : Request) (fuel : Nat) :
    statusTrace env req fuel <+:
      ["pending", "detecting_human", "editing_image", "generating_script",
        "generating_video", "completed"] ∨
    statusTrace env req fuel <+:
      ["pending", "detecting_human", "generating_script", "generating_video", "completed"] := by
  cases hh : req.heroImageUrl with
  | none =>
    right
    refine ⟨["generating_script", "generating_video", "completed"], ?_⟩
    simp [statusTrace, runHandler, hh, statusOf]
  | some s =>
    have hns := pollSora_noStatus env fuel (generateVideoScript env.scriptText) 0
    rcases hp : pollSora env (generateVideoScript env.scriptText) 0 fuel with ⟨pu, pout⟩
    rw [hp] at hns
    cases hb : detectHuman env.detectText
    · cases pout
      case ok url =>
        right
        refine ⟨[], ?_⟩
        simp only [statusTrace, runHandler, hh, hb]
        rw [hp]
        simp [imagePhase, List.filterMap_append, hns, statusOf]
      case failed msg =>
        right
        refine ⟨["completed"], ?_⟩
        simp only [statusTrace, runHandler, hh, hb]
        rw [hp]
        simp [imagePhase, List.filterMap_append, hns, statusOf]
      case fuelOut =>
        right
        refine ⟨["completed"], ?_⟩
        simp only [statusTrace, runHandler, hh, hb]
        rw [hp]
        simp [imagePhase, List.filterMap_append, hns, statusOf]
    · cases pout
      case ok url =>
        left
        refine ⟨[], ?_⟩
        simp only [statusTrace, runHandler, hh, hb]
        rw [hp]
        simp [imagePhase, List.filterMap_append, hns, statusOf]
      case failed msg =>
        left
        refine ⟨["completed"], ?_⟩
        simp only [statusTrace, runHandler, hh, hb]
        rw [hp]
        simp [imagePhase, List.filterMap_append, hns, statusOf]
      case fuelOut =>
        left
        refine ⟨["completed"], ?_⟩
        simp only [statusTrace, runHandler, hh, hb]
        rw [hp]
        simp [imagePhase, List.filterMap_append, hns, statusOf]

/-- C5 (counterexample): the status update marking a stage is persisted
before that stage's data, so an observer does see a stage status without its
data: after the fourth update of a clean no-subject run the row reads
`status = 'generating_script'` with `video_script` still null, and after the
sixth it reads `status = 'generating_video'` with `sora_task_id` still null. -/
theorem c5_status_visible_before_data :
    ((applyAll ((runHandler envA reqStd 1).1.take 4) (initJob reqStd)).status =
        "generating_script" ∧
      (applyAll ((runHandler envA reqStd 1).1.take 4) (initJob reqStd)).video_script = none) ∧
    ((applyAll ((runHandler envA reqStd 1).1.take 6) (initJob reqStd)).status =
        "generating_video" ∧
      (applyAll ((runHandler envA reqStd 1).1.take 6) (initJob reqStd)).sora_task_id = none) := by
  decide

/-- C5 (amended): each stage's status update is persisted before (not after)
that stage's data, so what holds for every observer-visible prefix state of
every run is the converse direction: data is never visible without its
stage's status having been reached — `video_script` set implies the status
has reached `generating_script`, `sora_task_id` set implies it has reached
`generating_video`, and a `video_url` is only ever visible together with
`status = 'completed'` (the terminal update writes them atomically). -/
theorem c5_data_never_before_status (env : Env) (req : Request) (fuel k : Nat) :
    GOODrec (applyAll ((runHandler env req fuel).1.take k) (initJob req)) :=
  takeGood _ _ (runHandler_goodChain env req fuel) k

/-- C6 (confirmed): whenever the poll loop reaches a `Succeeded{url}` result,
the run terminates with that URL: the final row has `status = 'completed'`,
`video_url = url`, `thumbnail_url` derived from the URL, `completed_at` set,
and the terminal update is the last write of the run. -/
theorem c6_success_persists_completed (env : Env) (req : Request) (fuel : Nat) (url : String)
    (h : (runHandler env req fuel).2 = Outcome.ok url) :
    (finalRecord env req fuel).status = "completed" ∧
    (finalRecord env req fuel).video_url = some url ∧
    (finalRecord env req fuel).thumbnail_url =
      some (replaceFirst url ".mp4" "_thumbnail.jpg") ∧
    (finalRecord env req fuel).completed_at = some env.now ∧
    ∃ t, (runHandler env req fuel).1 =
      t ++ [DbUpdate.completed url (replaceFirst url ".mp4" "_thumbnail.jpg") env.now] := by
  cases hh : req.heroImageUrl with
  | none => simp [runHandler, hh] at h
  | some s =>
    rcases hp : pollSora env (generateVideoScript env.scriptText) 0 fuel with ⟨pu, pout⟩
    cases pout with
    | ok u =>
      have hu : u = url := by
        simp only [runHandler, hh] at h
        rw [hp] at h
        exact Outcome.ok.inj h
      subst hu
      have htr : (runHandler env req fuel).1 =
          (DbUpdate.status "detecting_human" ::
            DbUpdate.humanDetected (detectHuman env.detectText) ::
            (imagePhase env (detectHuman env.detectText) env.imageBase64).1 ++
            [DbUpdate.status "generating_script",
              DbUpdate.videoScript (generateVideoScript env.scriptText),
              DbUpdate.status "generating_video", DbUpdate.soraTaskId (env.taskId 0)] ++ pu) ++
          [DbUpdate.completed u (replaceFirst u ".mp4" "_thumbnail.jpg") env.now] := by
        simp only [runHandler, hh]
        rw [hp]
      refine ⟨?_, ?_, ?_, ?_, ⟨_, htr⟩⟩ <;>
        simp [finalRecord, htr, applyAll_append, applyAll, applyUpdate]
    | failed msg =>
      simp only [runHandler, hh] at h
      rw [hp] at h
      simp at h
    | fuelOut =>
      simp only [runHandler, hh] at h
      rw [hp] at h
      simp at h

/-- Witness for `c6_success_persists_completed`: scenario A (no subject,
first poll succeeds).  The extra conjuncts check the scenario's expected
final record: `subject_detected` and `image_was_edited` false, `retry_count`
0. -/
theorem c6_success_persists_completed_witness :
    (runHandler envA reqStd 1).2 = Outcome.ok "https://v.example/U.mp4" ∧
    (finalRecord envA reqStd 1).status = "completed" ∧
    (finalRecord envA reqStd 1).video_url = some "https://v.example/U.mp4" ∧
    (finalRecord envA reqStd 1).thumbnail_url = some "https://v.example/U_thumbnail.jpg" ∧
    (finalRecord envA reqStd 1).human_detected = false ∧
    (finalRecord envA reqStd 1).image_edited = false ∧
    (finalRecord envA reqStd 1).retry_count = 0 :=
  ⟨by decide,
    (c6_success_persists_completed envA reqStd 1 "https://v.example/U.mp4" (by decide)).1,
    (c6_success_persists_completed envA reqStd 1 "https://v.example/U.mp4" (by decide)).2.1,
    by decide, by decide, by decide, by decide⟩

/-- The image-stage outcome as persisted: the detection result is written to
both flags, the uploaded URL becomes the row's `edited_image_url`, and the
image stage issues exactly one data update per run. -/
theorem runHandler_img_fields (env : Env) (req : Request) (fuel : Nat) (src : String)
    (hh : req.heroImageUrl = some src) :
    (finalRecord env req fuel).human_detected = detectHuman env.detectText ∧
    (finalRecord env req fuel).image_edited = detectHuman env.detectText ∧
    (finalRecord env req fuel).edited_image_url = some (processedUrl env) ∧
    (runHandler env req fuel).1.countP isImgUpd = 1 := by
  obtain ⟨tail, htr, htail⟩ := runHandler_decomp env req fuel src hh
  have hPollShape : ∀ u ∈ (pollSora env (generateVideoScript env.scriptText) 0 fuel).1,
      (∃ a b, u = DbUpdate.remediation a b) ∨ ∃ a b c, u = DbUpdate.completed a b c :=
    fun u hu => Or.inl (pollSora_shape env fuel (generateVideoScript env.scriptText) 0 u hu)
  have hTailShape : ∀ u ∈ tail,
      (∃ a b, u = DbUpdate.remediation a b) ∨ ∃ a b c, u = DbUpdate.completed a b c :=
    fun u hu => Or.inr (htail u hu)
  have hkT := applyAll_keeps_img tail hTailShape
  have hkP := applyAll_keeps_img _ hPollShape
  have hr2 :
      (applyAll
        ((DbUpdate.status "detecting_human" ::
            DbUpdate.humanDetected (detectHuman env.detectText) ::
            (imagePhase env (detectHuman env.detectText) env.imageBase64).1) ++
          [DbUpdate.status "generating_script",
            DbUpdate.videoScript (generateVideoScript env.scriptText),
            DbUpdate.status "generating_video", DbUpdate.soraTaskId (env.taskId 0)])
        (initJob req)).human_detected = detectHuman env.detectText ∧
      (applyAll
        ((DbUpdate.status "detecting_human" ::
            DbUpdate.humanDetected (detectHuman env.detectText) ::
            (imagePhase env (detectHuman env.detectText) env.imageBase64).1) ++
          [DbUpdate.status "generating_script",
            DbUpdate.videoScript (generateVideoScript env.scriptText),
            DbUpdate.status "generating_video", DbUpdate.soraTaskId (env.taskId 0)])
        (initJob req)).image_edited = detectHuman env.detectText ∧
      (applyAll
        ((DbUpdate.status "detecting_human" ::
            DbUpdate.humanDetected (detectHuman env.detectText) ::
            (imagePhase env (detectHuman env.detectText) env.imageBase64).1) ++
          [DbUpdate.status "generating_script",
            DbUpdate.videoScript (generateVideoScript env.scriptText),
            DbUpdate.status "generating_video", DbUpdate.soraTaskId (env.taskId 0)])
        (initJob req)).edited_image_url = some (processedUrl env) := by
    cases hb : detectHuman env.detectText <;>
      simp [hb, imagePhase, processedUrl, applyAll, applyUpdate, initJob]
  refine ⟨?_, ?_, ?_, ?_⟩
  · unfold finalRecord
    rw [htr, applyAll_append, applyAll_append]
    exact ((hkT _).1).trans (((hkP _).1).trans hr2.1)
  · unfold finalRecord
    rw [htr, applyAll_append, applyAll_append]
    exact ((hkT _).2.1).trans (((hkP _).2.1).trans hr2.2.1)
  · unfold finalRecord
    rw [htr, applyAll_append, applyAll_append]
    exact ((hkT _).2.2).trans (((hkP _).2.2).trans hr2.2.2)
  · rw [htr, List.countP_append, List.countP_append, List.countP_append]
    have h1 : List.countP isImgUpd
        (DbUpdate.status "detecting_human" ::
          DbUpdate.humanDetected (detectHuman env.detectText) ::
          (imagePhase env (detectHuman env.detectText) env.imageBase64).1) = 1 := by
      cases hb : detectHuman env.detectText <;>
        simp [hb, imagePhase, List.countP_cons, isImgUpd]
    have h2 : List.countP isImgUpd
        [DbUpdate.status "generating_script",
          DbUpdate.videoScript (generateVideoScript env.scriptText),
          DbUpdate.status "generating_video", DbUpdate.soraTaskId (env.taskId 0)] = 0 := by
      simp [List.countP_cons, isImgUpd]
    have h3 := pollSora_noImg env fuel (generateVideoScript env.scriptText) 0
    have h4 : List.countP isImgUpd tail = 0 := by
      rw [List.countP_eq_zero]
      intro u hu
      obtain ⟨a, b, c, rfl⟩ := htail u hu
      simp [isImgUpd]
    rw [h1, h2, h3, h4]

/-- After a run whose image URL was present, the script stage is reached:
`generating_script` appears in the status trace. -/
theorem runHandler_reaches_script (env : Env) (req : Request) (fuel : Nat) (src : String)
    (hh : req.heroImageUrl = some src) :
    "generating_script" ∈ statusTrace env req fuel := by
  obtain ⟨tail, htr, _⟩ := runHandler_decomp env req fuel src hh
  simp [statusTrace, htr, List.filterMap_append, statusOf]

/-- C7 (counterexample): nothing in the code makes the persisted
`processed_image_url` differ from the source image URL — with a publisher
that returns the source URL itself, the final row's `edited_image_url`
equals the row's `hero_image_url`, so the claimed inequality is false. -/
theorem c7_processed_url_can_equal_source :
    (finalRecord envSameUrl reqStd 1).edited_image_url = some "https://etsy.example/src.jpg" ∧
    (initJob reqStd).hero_image_url = "https://etsy.example/src.jpg" := by
  decide

/-- C7 (amended): the transformer runs in Edit mode iff `detectHuman`
returned true and in Optimize mode otherwise (visible in the uploaded bytes
below), the persisted flags equal the detection result, the persisted
`edited_image_url` is exactly the URL returned by the upload — so it differs
from the source URL whenever the publisher returns a different URL, which
the code itself does not enforce — and the image stage issues exactly one
data update per run (it is never retried). -/
theorem c7_image_stage (env : Env) (req : Request) (fuel : Nat) (src : String)
    (hh : req.heroImageUrl = some src) :
    (finalRecord env req fuel).human_detected = detectHuman env.detectText ∧
    (finalRecord env req fuel).image_edited = detectHuman env.detectText ∧
    (finalRecord env req fuel).edited_image_url =
      some (if detectHuman env.detectText then
        uploadToKie env (removeHumanFromImage env.editImageData env.imageBase64)
          "edited-product.jpg"
      else
        uploadToKie env (resizeImage env.resizeImageData env.imageBase64) "product.jpg") ∧
    (processedUrl env ≠ src → (finalRecord env req fuel).edited_image_url ≠ some src) ∧
    (runHandler env req fuel).1.countP isImgUpd = 1 := by
  obtain ⟨h1, h2, h3, h4⟩ := runHandler_img_fields env req fuel src hh
  have hpu : processedUrl env =
      if detectHuman env.detectText then
        uploadToKie env (removeHumanFromImage env.editImageData env.imageBase64)
          "edited-product.jpg"
      else uploadToKie env (resizeImage env.resizeImageData env.imageBase64) "product.jpg" := by
    cases hb : detectHuman env.detectText <;> simp [hb, processedUrl, imagePhase]
  refine ⟨h1, h2, hpu ▸ h3, ?_, h4⟩
  intro hne hcon
  rw [h3] at hcon
  exact hne (Option.some.inj hcon)

/-- Witness for `c7_image_stage`: the no-subject branch of scenario A, where
the publisher URL differs from the source URL. -/
theorem c7_image_stage_witness :
    (finalRecord envA reqStd 1).human_detected = false ∧
    (finalRecord envA reqStd 1).image_edited = false ∧
    (finalRecord envA reqStd 1).edited_image_url = some "https://kie.example/product.jpg" ∧
    (finalRecord envA reqStd 1).edited_image_url ≠ some "https://etsy.example/src.jpg" ∧
    (runHandler envA reqStd 1).1.countP isImgUpd = 1 := by
  obtain ⟨h1, h2, h3, h4, h5⟩ := c7_image_stage envA reqStd 1 "https://etsy.example/src.jpg" rfl
  exact ⟨h1, h2, h3, h4 (by decide), h5⟩

/-- C8 (counterexample): an invocation missing the required `jobId` does not
fail at all — the whole pipeline runs to `completed`, issuing every update
(against a non-matching row id) and never persisting `failed`; so neither
"fails before any external call" nor "only mutation is the immediate
transition to failed" holds. -/
theorem c8_missing_jobid_runs_fully :
    (runHandler envA reqNoJob 1).2 = Outcome.ok "https://v.example/U.mp4" ∧
    DbUpdate.status "failed" ∉ (runHandler envA reqNoJob 1).1 ∧
    (runHandler envA reqNoJob 1).1 ≠ [] := by
  decide

/-- C8 (amended): the handler performs no input validation.  A missing
`jobId`, `listingId` or `productTitle` changes nothing about the run (the
handler never branches on them), and a missing source image URL fails only
at the image download — after the `detecting_human` status update has
already been issued — with an error response and no `failed` status ever
persisted. -/
theorem c8_no_validation :
    (∀ (env : Env) (req : Request) (fuel : Nat),
      runHandler env
        { req with jobId := none, listingId := none, productTitle := none } fuel =
        runHandler env req fuel) ∧
    (∀ (env : Env) (req : Request) (fuel : Nat), req.heroImageUrl = none →
      (runHandler env req fuel).1 = [DbUpdate.status "detecting_human"] ∧
      ∃ m, (runHandler env req fuel).2 = Outcome.err m) := by
  constructor
  · intro env req fuel
    rfl
  · intro env req fuel hh
    simp [runHandler, hh]

/-- Witness for `c8_no_validation` at concrete inputs. -/
theorem c8_no_validation_witness :
    runHandler envA { reqStd with jobId := none, listingId := none, productTitle := none } 1 =
      runHandler envA reqStd 1 ∧
    (runHandler envA reqNoHero 1).1 = [DbUpdate.status "detecting_human"] :=
  ⟨c8_no_validation.1 envA reqStd 1, (c8_no_validation.2 envA reqNoHero 1 rfl).1⟩

/-- C9 (confirmed): when the image transformer returns no generated image —
in either mode — the stage falls back to the original downloaded bytes,
uploads those, persists the resulting URL, and the run continues into the
script stage; the transformation failure never fails the job. -/
theorem c9_transform_fallback (env : Env) (req : Request) (fuel : Nat) (src : String)
    (hh : req.heroImageUrl = some src) (he : env.editImageData = none)
    (hr : env.resizeImageData = none) :
    (finalRecord env req fuel).edited_image_url =
      some (uploadToKie env env.imageBase64
        (if detectHuman env.detectText then "edited-product.jpg" else "product.jpg")) ∧
    "generating_script" ∈ statusTrace env req fuel := by
  have h3 := (runHandler_img_fields env req fuel src hh).2.2.1
  have hpu : processedUrl env =
      uploadToKie env env.imageBase64
        (if detectHuman env.detectText then "edited-product.jpg" else "product.jpg") := by
    cases hb : detectHuman env.detectText <;>
      simp [hb, processedUrl, imagePhase, removeHumanFromImage, resizeImage, orElseStr, he, hr]
  exact ⟨hpu ▸ h3, runHandler_reaches_script env req fuel src hh⟩

/-- Witness for `c9_transform_fallback`: both transformer responses empty in
a no-subject run — the original bytes `IMGB64` are what gets uploaded. -/
theorem c9_transform_fallback_witness :
    (finalRecord envC9 reqStd 1).edited_image_url =
      some (uploadToKie envC9 "IMGB64" "product.jpg") ∧
    "generating_script" ∈ statusTrace envC9 reqStd 1 := by
  obtain ⟨h1, h2⟩ := c9_transform_fallback envC9 reqStd 1 "https://etsy.example/src.jpg" rfl rfl rfl
  exact ⟨h1, h2⟩

/-- C10 (confirmed): the subject detector returns true iff the classifier
response text, trimmed and upper-cased, is exactly `YES`; every other
response — including a missing one — yields false, which sends the pipeline
into the Optimize (no-edit) branch. -/
theorem c10_detect_yes_iff (resp : Option String) :
    detectHuman resp = true ↔ ∃ t, resp = some t ∧ jsToUpper (jsTrim t) = "YES" := by
  cases resp with
  | none => simp [detectHuman]
  | some t => simp [detectHuman]

end EtsyVideo
